import Mathlib

/-!
Verification of the peer-to-peer networking core of tri-v3-blockchain.

Each Python module under src/src/network is shallowly embedded: pure
functions become Lean functions, stateful methods become explicit state
passing, machine floats (times, token counts) are modelled as rationals,
byte strings as lists of naturals, and fallible code returns Option or
Except.  External libraries (the json codec, the AES primitives, the ECDH
and HKDF pipeline) enter as parameters constrained only by what the source
relies on: determinism.
-/

namespace TriV3

/-! ### JSON values (the boundary to Python's json library)

`json.dumps` / `json.loads` acting on the JSON-representable fragment used
by the protocol (objects, arrays, strings, numbers, booleans, null) is a
bijection up to this AST: `loads (dumps v) = v`.  The codec is therefore
embedded at the AST level; the byte serialization is the identity there. -/

inductive Json where
  | null : Json
  | bool (b : Bool) : Json
  | num (q : ℚ) : Json
  | str (s : String) : Json
  | arr (elems : List Json) : Json
  | obj (fields : List (String × Json)) : Json

/-- Dictionary lookup `d.get(key)` on a decoded JSON object. -/
def Json.get (j : Json) (key : String) : Option Json :=
  match j with
  | Json.obj fields => fields.lookup key
  | _ => none

/-! ### MessageType and Message (src/src/network/protocol.py lines 6-25)

The Enum as written in the source: nine members.  The sync manager refers
to `MessageType.BLOCK_REQUEST` and `MessageType.BLOCK_RESPONSE`, which do
not exist in this enumeration. -/

inductive MessageType where
  | HANDSHAKE
  | BLOCK
  | TRANSACTION
  | PEER_DISCOVERY
  | PEER_LIST
  | HEARTBEAT
  | CHAIN_REQUEST
  | CHAIN_RESPONSE
  | ERROR
  deriving DecidableEq, Repr

/-- The `.value` of each enum member. -/
def MessageType.value : MessageType → String
  | .HANDSHAKE => "handshake"
  | .BLOCK => "block"
  | .TRANSACTION => "transaction"
  | .PEER_DISCOVERY => "peer_discovery"
  | .PEER_LIST => "peer_list"
  | .HEARTBEAT => "heartbeat"
  | .CHAIN_REQUEST => "chain_request"
  | .CHAIN_RESPONSE => "chain_response"
  | .ERROR => "error"

/-- `MessageType(s)`: Python's Enum value lookup; raises ValueError (here
`none`) when no member carries the value `s`. -/
def MessageType.ofValue (s : String) : Option MessageType :=
  if s = "handshake" then some .HANDSHAKE
  else if s = "block" then some .BLOCK
  else if s = "transaction" then some .TRANSACTION
  else if s = "peer_discovery" then some .PEER_DISCOVERY
  else if s = "peer_list" then some .PEER_LIST
  else if s = "heartbeat" then some .HEARTBEAT
  else if s = "chain_request" then some .CHAIN_REQUEST
  else if s = "chain_response" then some .CHAIN_RESPONSE
  else if s = "error" then some .ERROR
  else none

/-- Every member of the enumeration, in source order. -/
def allMessageTypes : List MessageType :=
  [.HANDSHAKE, .BLOCK, .TRANSACTION, .PEER_DISCOVERY, .PEER_LIST,
   .HEARTBEAT, .CHAIN_REQUEST, .CHAIN_RESPONSE, .ERROR]

/-- The Message dataclass: type, data, sender, timestamp, optional
signature.  Timestamps (Python floats) are modelled as rationals. -/
structure Message where
  type : MessageType
  data : Json
  sender : String
  timestamp : ℚ
  signature : Option String

/-! ### Protocol codec (src/src/network/protocol.py lines 27-66) -/

def PROTOCOL_VERSION : String := "1.0.0"

def MAX_MESSAGE_SIZE : ℕ := 1024 * 1024

/-- `Protocol.encode_message`: build the dict with the six keys and dump
it; embedded as the JSON object itself (dumps is injective on this
fragment, see the header note). -/
def encode_message (m : Message) : Json :=
  Json.obj
    [("type", Json.str m.type.value),
     ("data", m.data),
     ("sender", Json.str m.sender),
     ("timestamp", Json.num m.timestamp),
     ("signature", match m.signature with
                   | none => Json.null
                   | some s => Json.str s),
     ("version", Json.str PROTOCOL_VERSION)]

/-- `message_dict.get("version") != Protocol.VERSION` check: in Python a
non-string or missing value is simply unequal to the version string. -/
def versionMatches (j : Option Json) : Bool :=
  match j with
  | some (Json.str s) => s = PROTOCOL_VERSION
  | _ => false

/-- `Protocol.decode_message`: parse, check the version, read the required
fields (KeyError on a missing one becomes `none`), rebuild the enum member
from its value.  The source performs no type check on the field values; on
every output of `encode_message` the shapes matched here are exactly the
ones present, so the two agree on all round-trip inputs. -/
def decode_message (j : Json) : Option Message :=
  if versionMatches (j.get "version") then
    match j.get "type", j.get "data", j.get "sender", j.get "timestamp" with
    | some (Json.str tys), some d, some (Json.str sdr), some (Json.num ts) =>
      match MessageType.ofValue tys with
      | some mt =>
        some { type := mt, data := d, sender := sdr, timestamp := ts,
               signature := match j.get "signature" with
                            | some (Json.str s) => some s
                            | _ => none }
      | none => none
    | _, _, _, _ => none
  else none

lemma ofValue_value (t : MessageType) : MessageType.ofValue t.value = some t := by
  cases t <;> rfl

/-- C4: for every valid message (type from the enumeration, JSON data,
string sender, rational timestamp, optional string signature), decoding
the encoding returns the original message. -/
theorem c4_decode_encode_roundtrip (m : Message) :
    decode_message (encode_message m) = some m := by
  obtain ⟨ty, d, sdr, ts, sig⟩ := m
  cases ty <;> cases sig <;> rfl

/-- C3: the enumerated message-type set of the source consists of exactly
nine tag strings; neither block_request nor block_response is a member, so
a frame carrying one of those type tags is rejected by the decoder, and
the attribute lookups performed by SyncManager.sync_blocks_from_peer have
no target. -/
theorem c3_message_type_set :
    allMessageTypes.map MessageType.value =
      ["handshake", "block", "transaction", "peer_discovery", "peer_list",
       "heartbeat", "chain_request", "chain_response", "error"] ∧
    MessageType.ofValue "block_request" = none ∧
    MessageType.ofValue "block_response" = none ∧
    decode_message (Json.obj
      [("type", Json.str "block_request"),
       ("data", Json.obj [("start_height", Json.num 1), ("end_height", Json.num 3)]),
       ("sender", Json.str "peer1"),
       ("timestamp", Json.num 0),
       ("signature", Json.null),
       ("version", Json.str "1.0.0")]) = none := by
  refine ⟨rfl, rfl, rfl, ?_⟩
  rfl

/-! ### Token bucket (src/src/network/rate_limiter.py lines 9-38)

Float arithmetic on times and token counts is modelled over the
rationals.  `time.time()` becomes an explicit `now` argument. -/

structure TokenBucket where
  capacity : ℚ
  fill_rate : ℚ
  tokens : ℚ
  last_update : ℚ

/-- The dataclass constructor: `__post_init__` sets `tokens = capacity`
and `last_update` to the current time. -/
def TokenBucket.init (capacity fill_rate now : ℚ) : TokenBucket :=
  { capacity := capacity, fill_rate := fill_rate, tokens := capacity,
    last_update := now }

/-- `TokenBucket.consume`: refill from the elapsed time, capped at the
capacity, then deduct when enough tokens are available. -/
def TokenBucket.consume (b : TokenBucket) (now n : ℚ) : TokenBucket × Bool :=
  let elapsed := now - b.last_update
  let refilled := min b.capacity (b.tokens + elapsed * b.fill_rate)
  if n ≤ refilled then
    ({ b with tokens := refilled - n, last_update := now }, true)
  else
    ({ b with tokens := refilled, last_update := now }, false)

/-- Run a sequence of consume calls, keeping only the bucket state. -/
def TokenBucket.consumeAll (b : TokenBucket) (calls : List (ℚ × ℚ)) : TokenBucket :=
  calls.foldl (fun st c => (st.consume c.1 c.2).1) b

/-- The calls happen at non-decreasing clock times starting no earlier
than `t0`, and each requests a non-negative amount. -/
def validCalls (t0 : ℚ) : List (ℚ × ℚ) → Prop
  | [] => True
  | c :: rest => t0 ≤ c.1 ∧ 0 ≤ c.2 ∧ validCalls c.1 rest

/-- One consume step preserves the bucket invariant. -/
lemma TokenBucket.consume_invariant (b : TokenBucket) (now n : ℚ)
    (hfill : 0 ≤ b.fill_rate) (htok : 0 ≤ b.tokens) (hcap : b.tokens ≤ b.capacity)
    (hmono : b.last_update ≤ now) (hn : 0 ≤ n) :
    0 ≤ (b.consume now n).1.tokens ∧
      (b.consume now n).1.tokens ≤ (b.consume now n).1.capacity ∧
      (b.consume now n).1.capacity = b.capacity ∧
      (b.consume now n).1.fill_rate = b.fill_rate ∧
      (b.consume now n).1.last_update = now := by
  have h1 : 0 ≤ (now - b.last_update) * b.fill_rate := mul_nonneg (by linarith) hfill
  have hre : 0 ≤ min b.capacity (b.tokens + (now - b.last_update) * b.fill_rate) :=
    le_min (le_trans htok hcap) (by linarith)
  have hle : min b.capacity (b.tokens + (now - b.last_update) * b.fill_rate) ≤ b.capacity :=
    min_le_left _ _
  by_cases h : n ≤ min b.capacity (b.tokens + (now - b.last_update) * b.fill_rate)
  · have heq : b.consume now n =
        ({ b with
            tokens := min b.capacity (b.tokens + (now - b.last_update) * b.fill_rate) - n,
            last_update := now }, true) := by
      simp [TokenBucket.consume, h]
    rw [heq]
    exact ⟨by show (0:ℚ) ≤ _ - n; linarith,
           by show _ - n ≤ b.capacity; linarith, rfl, rfl, rfl⟩
  · have heq : b.consume now n =
        ({ b with
            tokens := min b.capacity (b.tokens + (now - b.last_update) * b.fill_rate),
            last_update := now }, false) := by
      simp [TokenBucket.consume, h]
    rw [heq]
    exact ⟨hre, hle, rfl, rfl, rfl⟩

/-- Invariant carried through a whole call sequence. -/
lemma TokenBucket.consumeAll_invariant (calls : List (ℚ × ℚ)) :
    ∀ b : TokenBucket, 0 ≤ b.fill_rate → 0 ≤ b.tokens → b.tokens ≤ b.capacity →
      validCalls b.last_update calls →
      0 ≤ (b.consumeAll calls).tokens ∧
        (b.consumeAll calls).tokens ≤ (b.consumeAll calls).capacity ∧
        (b.consumeAll calls).capacity = b.capacity := by
  induction calls with
  | nil => intro b _ h1 h2 _; exact ⟨h1, h2, rfl⟩
  | cons c rest ih =>
    intro b hfill htok hcap hvalid
    obtain ⟨ht, hn, hrest⟩ := hvalid
    obtain ⟨s1, s2, s3, s4, s5⟩ := b.consume_invariant c.1 c.2 hfill htok hcap ht hn
    have hrest' : validCalls (b.consume c.1 c.2).1.last_update rest := by
      rw [s5]; exact hrest
    have := ih (b.consume c.1 c.2).1 (by rw [s4]; exact hfill) s1 s2 hrest'
    simpa [TokenBucket.consumeAll, s3] using this

/-- C5: a bucket created with non-negative capacity and fill rate holds
`0 ≤ tokens ≤ capacity` after any sequence of consume calls that request
non-negative amounts at non-decreasing clock times. -/
theorem c5_token_bucket_bounds (C f t0 : ℚ) (calls : List (ℚ × ℚ))
    (hC : 0 ≤ C) (hf : 0 ≤ f) (hcalls : validCalls t0 calls) :
    0 ≤ ((TokenBucket.init C f t0).consumeAll calls).tokens ∧
      ((TokenBucket.init C f t0).consumeAll calls).tokens ≤ C := by
  obtain ⟨h1, h2, h3⟩ :=
    TokenBucket.consumeAll_invariant calls (TokenBucket.init C f t0) hf hC le_rfl hcalls
  have hc : (TokenBucket.init C f t0).capacity = C := rfl
  rw [h3, hc] at h2
  exact ⟨h1, h2⟩

/-- C5 witness: a concrete run. Bucket of capacity 2, rate 1, created at
time 0; consume 1 at time 1 and 3 at time 2. -/
theorem c5_token_bucket_bounds_witness :
    (0 ≤ (2 : ℚ) ∧ 0 ≤ (1 : ℚ) ∧ validCalls 0 [(1, 1), (2, 3)]) ∧
      (0 ≤ ((TokenBucket.init 2 1 0).consumeAll [(1, 1), (2, 3)]).tokens ∧
        ((TokenBucket.init 2 1 0).consumeAll [(1, 1), (2, 3)]).tokens ≤ 2) := by
  have h : 0 ≤ (2 : ℚ) ∧ 0 ≤ (1 : ℚ) ∧ validCalls 0 [(1, 1), (2, 3)] := by
    refine ⟨by norm_num, by norm_num, ?_⟩
    simp only [validCalls]
    norm_num
  exact ⟨h, c5_token_bucket_bounds 2 1 0 [(1, 1), (2, 3)] h.1 h.2.1 h.2.2⟩

/-! ### Rate limiter (src/src/network/rate_limiter.py lines 40-180)

`PeerLimits.request_history` is a `deque(maxlen=1000)`: appending to a
full deque silently drops the oldest entry.  The peer map becomes a
function `String → Option PeerLimits`; the blocked / denial reason
strings become an inductive (the source formats remaining seconds into
the string, which carries no further information). -/

def default_message_rate : ℚ := 100
def default_bandwidth_rate : ℚ := 1024 * 1024
def burst_multiplier : ℚ := 2
def request_window : ℚ := 60
def max_requests_per_window : ℕ := 1000
def block_duration : ℚ := 300

structure PeerLimits where
  node_id : String
  message_bucket : TokenBucket
  bandwidth_bucket : TokenBucket
  request_history : List (ℚ × String × ℚ)
  blocked_until : ℚ

structure RateLimiter where
  peers : String → Option PeerLimits
  global_message_bucket : TokenBucket
  global_bandwidth_bucket : TokenBucket

/-- Store a value under a key in a function-backed map. -/
def mapUpdate {α : Type} (f : String → Option α) (k : String) (v : α) :
    String → Option α :=
  fun k2 => if k2 = k then some v else f k2

/-- `deque.append` on a deque with a maximum length: the combined list is
kept, dropping elements from the left down to `maxlen`. -/
def dequeAppend {α : Type} (maxlen : ℕ) (xs : List α) (x : α) : List α :=
  let ys := xs ++ [x]
  ys.drop (ys.length - maxlen)

/-- The while-popleft loop of `_check_request_frequency`: drop leading
entries whose timestamp is older than the window start. -/
def pruneHistory (windowStart : ℚ) : List (ℚ × String × ℚ) → List (ℚ × String × ℚ)
  | [] => []
  | e :: rest => if e.1 < windowStart then pruneHistory windowStart rest else e :: rest

/-- `RateLimiter._block_peer`. -/
def block_peer (p : PeerLimits) (now : ℚ) : PeerLimits :=
  if now < p.blocked_until then { p with blocked_until := now + block_duration * 2 }
  else { p with blocked_until := now + block_duration }

/-- `RateLimiter._check_request_frequency`: prune, then block when the
window holds strictly more than `max_requests_per_window` entries. -/
def check_request_frequency (p : PeerLimits) (now : ℚ) : PeerLimits :=
  let pruned := { p with
    request_history := pruneHistory (now - request_window) p.request_history }
  if max_requests_per_window < pruned.request_history.length then block_peer pruned now
  else pruned

/-- Denial reasons of `is_allowed` (the source returns strings). -/
inductive DenyReason where
  | notRegistered
  | peerBlocked
  | globalMessageLimit
  | globalBandwidthLimit
  | peerMessageLimit
  | peerBandwidthLimit
  deriving DecidableEq, Repr

/-- `RateLimiter.is_allowed`: registration check, block check, global
buckets, peer buckets, history append, frequency check.  Bucket refills
performed by a failing consume persist, exactly as the in-place mutation
of the Python objects does. -/
def is_allowed (rl : RateLimiter) (node_id : String) (message_type : String)
    (size : ℚ) (now : ℚ) : RateLimiter × Bool × Option DenyReason :=
  match rl.peers node_id with
  | none => (rl, false, some DenyReason.notRegistered)
  | some peer =>
    if now < peer.blocked_until then (rl, false, some DenyReason.peerBlocked)
    else
      let gmc := rl.global_message_bucket.consume now 1
      let rl1 := { rl with global_message_bucket := gmc.1 }
      if gmc.2 = false then (rl1, false, some DenyReason.globalMessageLimit)
      else
        let gbc := rl1.global_bandwidth_bucket.consume now size
        let rl2 := { rl1 with global_bandwidth_bucket := gbc.1 }
        if gbc.2 = false then (rl2, false, some DenyReason.globalBandwidthLimit)
        else
          let pmc := peer.message_bucket.consume now 1
          let peer1 := { peer with message_bucket := pmc.1 }
          if pmc.2 = false then
            ({ rl2 with peers := mapUpdate rl2.peers node_id peer1 }, false,
             some DenyReason.peerMessageLimit)
          else
            let pbc := peer1.bandwidth_bucket.consume now size
            let peer2 := { peer1 with bandwidth_bucket := pbc.1 }
            if pbc.2 = false then
              ({ rl2 with peers := mapUpdate rl2.peers node_id peer2 }, false,
               some DenyReason.peerBandwidthLimit)
            else
              let hist := dequeAppend 1000 peer2.request_history (now, message_type, size)
              let peer3 := { peer2 with request_history := hist }
              let peer4 := check_request_frequency peer3 now
              ({ rl2 with peers := mapUpdate rl2.peers node_id peer4 }, true, none)

/-- A deque append never leaves more than `maxlen` elements. -/
lemma dequeAppend_length_le {α : Type} (maxlen : ℕ) (xs : List α) (x : α) :
    (dequeAppend maxlen xs x).length ≤ maxlen := by
  simp only [dequeAppend, List.length_drop, List.length_append, List.length_singleton]
  omega

lemma pruneHistory_length_le (ws : ℚ) (l : List (ℚ × String × ℚ)) :
    (pruneHistory ws l).length ≤ l.length := by
  induction l with
  | nil => simp [pruneHistory]
  | cons e rest ih =>
    simp only [pruneHistory]
    by_cases h : e.1 < ws
    · simp only [h, if_true]
      exact le_trans ih (Nat.le_succ _)
    · simp only [h, if_false]
      simp

/-- The deque cap makes the blocking branch unreachable: after an append
capped at 1000 and a prune, the window never holds more than 1000
entries, so `check_request_frequency` leaves `blocked_until` alone. -/
lemma check_request_frequency_no_block (p : PeerLimits) (now : ℚ)
    (hlen : p.request_history.length ≤ max_requests_per_window) :
    (check_request_frequency p now).blocked_until = p.blocked_until := by
  have hp : (pruneHistory (now - request_window) p.request_history).length ≤
      max_requests_per_window :=
    le_trans (pruneHistory_length_le _ _) hlen
  unfold check_request_frequency
  have hcond : ¬ max_requests_per_window <
      (pruneHistory (now - request_window) p.request_history).length := by omega
  simp only [hcond, if_false]

set_option maxRecDepth 4000 in
/-- C2 (as the code behaves): `is_allowed` never changes any peer's
`blocked_until`.  The request history is a deque with maxlen 1000, so the
strict comparison `len(history) > 1000` in `_check_request_frequency` is
never true and `_block_peer` is unreachable from `is_allowed`. -/
theorem c2_is_allowed_never_blocks (rl : RateLimiter) (node_id message_type : String)
    (size now : ℚ) :
    ((is_allowed rl node_id message_type size now).1.peers node_id).map
        PeerLimits.blocked_until = (rl.peers node_id).map PeerLimits.blocked_until := by
  unfold is_allowed
  cases hpeer : rl.peers node_id with
  | none => simp [hpeer]
  | some peer =>
    simp only
    by_cases hb : now < peer.blocked_until
    · simp [hb, hpeer]
    · simp only [hb, if_false]
      by_cases hgm : (rl.global_message_bucket.consume now 1).2 = false
      · simp [hgm, hpeer]
      · simp only [hgm, if_false]
        by_cases hgb :
            (rl.global_bandwidth_bucket.consume now size).2 = false
        · simp [hgb, hpeer]
        · simp only [hgb, if_false]
          by_cases hpm : (peer.message_bucket.consume now 1).2 = false
          · simp [hpm, hpeer, mapUpdate]
          · simp only [hpm, if_false]
            by_cases hpb : (peer.bandwidth_bucket.consume now size).2 = false
            · simp [hpb, hpeer, mapUpdate]
            · rw [if_neg hpb]
              simp [mapUpdate]
              rw [check_request_frequency_no_block]
              simpa [max_requests_per_window] using
                dequeAppend_length_le 1000 peer.request_history (now, message_type, size)

/-- A successful consume leaves the refilled amount minus the request. -/
lemma TokenBucket.consume_true_tokens (b : TokenBucket) (now n : ℚ)
    (h : (b.consume now n).2 = true) :
    (b.consume now n).1.tokens =
      min b.capacity (b.tokens + (now - b.last_update) * b.fill_rate) - n := by
  unfold TokenBucket.consume at h ⊢
  by_cases hc : n ≤ min b.capacity (b.tokens + (now - b.last_update) * b.fill_rate)
  · simp [hc]
  · simp [hc] at h

set_option maxRecDepth 4000 in
/-- C10: when a registered, unblocked peer is denied at the per-peer
stage, both global buckets have already been debited (1 message token and
`size` bandwidth tokens) and `is_allowed` does not restore them: the
returned state carries the debited global buckets. -/
theorem c10_peer_denial_depletes_global (rl : RateLimiter)
    (node_id message_type : String) (size now : ℚ) (peer : PeerLimits)
    (hpeer : rl.peers node_id = some peer)
    (hnb : ¬ now < peer.blocked_until)
    (hgm : (rl.global_message_bucket.consume now 1).2 = true)
    (hgb : (rl.global_bandwidth_bucket.consume now size).2 = true)
    (hdeny : (peer.message_bucket.consume now 1).2 = false ∨
      (peer.bandwidth_bucket.consume now size).2 = false) :
    (is_allowed rl node_id message_type size now).2.1 = false ∧
      (is_allowed rl node_id message_type size now).1.global_message_bucket.tokens =
        min rl.global_message_bucket.capacity
          (rl.global_message_bucket.tokens +
            (now - rl.global_message_bucket.last_update) *
              rl.global_message_bucket.fill_rate) - 1 ∧
      (is_allowed rl node_id message_type size now).1.global_bandwidth_bucket.tokens =
        min rl.global_bandwidth_bucket.capacity
          (rl.global_bandwidth_bucket.tokens +
            (now - rl.global_bandwidth_bucket.last_update) *
              rl.global_bandwidth_bucket.fill_rate) - size := by
  have hmt := rl.global_message_bucket.consume_true_tokens now 1 hgm
  have hbt := rl.global_bandwidth_bucket.consume_true_tokens now size hgb
  unfold is_allowed
  rw [hpeer]
  simp only [if_neg hnb]
  by_cases hpm : (peer.message_bucket.consume now 1).2 = false
  · simp [hgm, hgb, hpm, hmt, hbt]
  · have hpb : (peer.bandwidth_bucket.consume now size).2 = false := by
      rcases hdeny with h | h
      · exact absurd h hpm
      · exact h
    simp [hgm, hgb, hpm, hpb, hmt, hbt]

/-- Concrete rate-limiter state for the C10 witness: ample global
buckets, a peer message bucket of capacity zero. -/
def peerW : PeerLimits :=
  { node_id := "P",
    message_bucket := { capacity := 0, fill_rate := 0, tokens := 0, last_update := 0 },
    bandwidth_bucket := { capacity := 100, fill_rate := 10, tokens := 100, last_update := 0 },
    request_history := [],
    blocked_until := 0 }

def rlW : RateLimiter :=
  { peers := mapUpdate (fun _ => none) "P" peerW,
    global_message_bucket :=
      { capacity := 2000, fill_rate := 1000, tokens := 2000, last_update := 0 },
    global_bandwidth_bucket :=
      { capacity := 100, fill_rate := 10, tokens := 100, last_update := 0 } }

/-- C10 witness: a peer-stage denial at a concrete state debits both
global buckets. -/
theorem c10_peer_denial_depletes_global_witness :
    (rlW.peers "P" = some peerW ∧
      ¬ (0:ℚ) < peerW.blocked_until ∧
      (rlW.global_message_bucket.consume 0 1).2 = true ∧
      (rlW.global_bandwidth_bucket.consume 0 5).2 = true ∧
      ((peerW.message_bucket.consume 0 1).2 = false ∨
        (peerW.bandwidth_bucket.consume 0 5).2 = false)) ∧
    ((is_allowed rlW "P" "block" 5 0).2.1 = false ∧
      (is_allowed rlW "P" "block" 5 0).1.global_message_bucket.tokens =
        min rlW.global_message_bucket.capacity
          (rlW.global_message_bucket.tokens +
            ((0:ℚ) - rlW.global_message_bucket.last_update) *
              rlW.global_message_bucket.fill_rate) - 1 ∧
      (is_allowed rlW "P" "block" 5 0).1.global_bandwidth_bucket.tokens =
        min rlW.global_bandwidth_bucket.capacity
          (rlW.global_bandwidth_bucket.tokens +
            ((0:ℚ) - rlW.global_bandwidth_bucket.last_update) *
              rlW.global_bandwidth_bucket.fill_rate) - 5) := by
  have h1 : rlW.peers "P" = some peerW := by
    simp [rlW, mapUpdate]
  have h2 : ¬ (0:ℚ) < peerW.blocked_until := by
    simp [peerW]
  have h3 : (rlW.global_message_bucket.consume 0 1).2 = true := by
    norm_num [rlW, TokenBucket.consume]
  have h4 : (rlW.global_bandwidth_bucket.consume 0 5).2 = true := by
    norm_num [rlW, TokenBucket.consume]
  have h5 : (peerW.message_bucket.consume 0 1).2 = false ∨
      (peerW.bandwidth_bucket.consume 0 5).2 = false := by
    left
    norm_num [peerW, TokenBucket.consume]
  exact ⟨⟨h1, h2, h3, h4, h5⟩,
    c10_peer_denial_depletes_global rlW "P" "block" 5 0 peerW h1 h2 h3 h4 h5⟩

/-! ### Security manager (src/src/network/security.py)

The node keypair, peer public keys and session keys are abstract types.
The composition ECDH-exchange followed by HKDF-SHA256 with a fixed salt
and info is a deterministic function of the private key and the peer
public key; it enters the embedding as the parameter `derive`.  Byte
strings are lists of naturals. -/

structure SecurityManager (Priv Pub Key : Type) where
  private_key : Priv
  session_keys : String → Option Key
  peer_keys : String → Option Pub

/-- `SecurityManager.establish_session` on the success path (the claim
premise is that it returned true): store the parsed peer public key, then
derive and store the session key. -/
def establish_session {Priv Pub Key : Type} (derive : Priv → Pub → Key)
    (sm : SecurityManager Priv Pub Key) (peer_id : String) (peer_public_key : Pub) :
    SecurityManager Priv Pub Key × Bool :=
  let sm1 := { sm with peer_keys := mapUpdate sm.peer_keys peer_id peer_public_key }
  let session_key := derive sm.private_key peer_public_key
  ({ sm1 with session_keys := mapUpdate sm1.session_keys peer_id session_key }, true)

/-- `SecurityManager.rotate_session_key`: fail when no public key is
stored for the peer; otherwise run the same ECDH+HKDF derivation again on
the stored key and swap the result in. -/
def rotate_session_key {Priv Pub Key : Type} (derive : Priv → Pub → Key)
    (sm : SecurityManager Priv Pub Key) (peer_id : String) :
    SecurityManager Priv Pub Key × Bool :=
  match sm.peer_keys peer_id with
  | none => (sm, false)
  | some pub =>
    ({ sm with session_keys :=
        mapUpdate sm.session_keys peer_id (derive sm.private_key pub) }, true)

/-- C1 (as the code behaves): after a successful `establish_session`,
`rotate_session_key` succeeds but stores the very same session key, since
it reruns the deterministic ECDH+HKDF derivation on the unchanged private
key and stored peer public key.  Hence every ciphertext produced before
the rotation still decrypts under the post-rotation key. -/
theorem c1_rotate_session_key_same_key {Priv Pub Key : Type}
    (derive : Priv → Pub → Key) (sm : SecurityManager Priv Pub Key)
    (peer_id : String) (peer_public_key : Pub) :
    (establish_session derive sm peer_id peer_public_key).2 = true ∧
      (rotate_session_key derive
        (establish_session derive sm peer_id peer_public_key).1 peer_id).2 = true ∧
      (rotate_session_key derive
          (establish_session derive sm peer_id peer_public_key).1 peer_id).1.session_keys
          peer_id =
        (establish_session derive sm peer_id peer_public_key).1.session_keys peer_id ∧
      (establish_session derive sm peer_id peer_public_key).1.session_keys peer_id =
        some (derive sm.private_key peer_public_key) := by
  refine ⟨rfl, ?_, ?_, ?_⟩
  all_goals
    simp [establish_session, rotate_session_key, mapUpdate]


/-- `SecurityManager._add_padding`: PKCS7 padding to a 16-byte multiple. -/
def add_padding (message : List ℕ) : List ℕ :=
  let padding_length := 16 - message.length % 16
  message ++ List.replicate padding_length padding_length

/-- `SecurityManager._remove_padding`: read the final byte as the padding
length and slice it off.  No validation is performed.  On the empty input
`padded_message[-1]` raises IndexError (caught by the caller, hence
`none`); a final byte of 0 reproduces the Python slice `[:-0] == [:0]`,
the empty string. -/
def remove_padding (padded_message : List ℕ) : Option (List ℕ) :=
  match padded_message.getLast? with
  | none => none
  | some padding_length =>
    if padding_length = 0 then some []
    else some (padded_message.take (padded_message.length - padding_length))

/-- `SecurityManager.decrypt_message`: fail without a session key; split
the first 16 bytes as the IV; AES-256-CBC-decrypt the remainder (the
library cipher enters as the deterministic parameter `cbc_decrypt`, whose
`none` models an exception from update/finalize, e.g. a ciphertext that is
not a multiple of the block size); strip the padding.  Any exception on
the way yields `none`. -/
def decrypt_message {Priv Pub Key : Type}
    (cbc_decrypt : Key → List ℕ → List ℕ → Option (List ℕ))
    (sm : SecurityManager Priv Pub Key) (peer_id : String)
    (encrypted_message : List ℕ) : Option (List ℕ) :=
  match sm.session_keys peer_id with
  | none => none
  | some key =>
    let iv := encrypted_message.take 16
    let ciphertext := encrypted_message.drop 16
    match cbc_decrypt key iv ciphertext with
    | none => none
    | some padded_message => remove_padding padded_message

/-- PKCS7 well-formedness as the claim states it: the final byte lies in
1..16 and the trailing `padding_length` bytes all equal it. -/
def pkcs7WellFormed (padded_message : List ℕ) : Prop :=
  ∃ n, padded_message.getLast? = some n ∧ 1 ≤ n ∧ n ≤ 16 ∧
    n ≤ padded_message.length ∧
    ∀ b ∈ padded_message.drop (padded_message.length - n), b = n

/-- A stand-in block cipher for the concrete counterexample: the identity
on ciphertexts whose length is a multiple of the block size (any fixed
deterministic cipher would do; the padding handling under test is
independent of it). -/
def idCipher : ℕ → List ℕ → List ℕ → Option (List ℕ) :=
  fun _ _ ciphertext =>
    if ciphertext.length % 16 = 0 then some ciphertext else none

/-- A security manager holding session key 7 for peer P. -/
def smW : SecurityManager ℕ ℕ ℕ :=
  { private_key := 3,
    session_keys := mapUpdate (fun _ => none) "P" 7,
    peer_keys := mapUpdate (fun _ => none) "P" 5 }

/-- A 32-byte blob: a 16-byte IV followed by one ciphertext block whose
decryption ends in byte 17 - malformed padding (17 is outside 1..16). -/
def blobW : List ℕ :=
  List.replicate 16 0 ++ (List.replicate 15 1 ++ [17])

/-- C9 counterexample: on a blob whose decrypted padded message ends in
the byte 17 - malformed PKCS7 padding - `decrypt_message` returns a
plaintext (the empty byte string) instead of failing, because
`_remove_padding` never validates: the claim that malformed padding is
rejected is false on the code. -/
theorem c9_counterexample :
    decrypt_message idCipher smW "P" blobW = some [] ∧
      idCipher 7 (blobW.take 16) (blobW.drop 16) = some (List.replicate 15 1 ++ [17]) ∧
      ¬ pkcs7WellFormed (List.replicate 15 1 ++ [17]) := by
  refine ⟨rfl, rfl, ?_⟩
  rintro ⟨n, hn, h1, h16, hlen, hall⟩
  have hn17 : n = 17 := by
    have : (List.replicate 15 1 ++ [17] : List ℕ).getLast? = some 17 := by decide
    rw [this] at hn
    exact (Option.some.injEq _ _).mp hn.symm
  omega

/-- `remove_padding` succeeds on every nonempty input, whatever the final
byte is. -/
lemma remove_padding_isSome (padded_message : List ℕ) (h : padded_message ≠ []) :
    (remove_padding padded_message).isSome = true := by
  unfold remove_padding
  cases hl : padded_message.getLast? with
  | none =>
    exact absurd (List.getLast?_eq_none_iff.mp hl) h
  | some n =>
    by_cases hn : n = 0 <;> simp [hn]

/-- C9 (as the code behaves): `decrypt_message` splits the first 16 bytes
as the IV, decrypts the remainder, and strips the number of trailing
bytes named by the final byte without validating them: whenever the
library decryption yields a nonempty padded message, decryption returns a
plaintext, even when the padding is malformed.  Only an empty padded
message (or a cipher failure, or a missing session key) yields a
failure. -/
theorem c9_decrypt_strips_padding_unvalidated {Priv Pub Key : Type}
    (cbc_decrypt : Key → List ℕ → List ℕ → Option (List ℕ))
    (sm : SecurityManager Priv Pub Key) (peer_id : String)
    (encrypted_message padded_message : List ℕ) (key : Key)
    (hkey : sm.session_keys peer_id = some key)
    (hdec : cbc_decrypt key (encrypted_message.take 16) (encrypted_message.drop 16) =
      some padded_message)
    (hne : padded_message ≠ []) :
    decrypt_message cbc_decrypt sm peer_id encrypted_message =
        remove_padding padded_message ∧
      (decrypt_message cbc_decrypt sm peer_id encrypted_message).isSome = true := by
  have hd : decrypt_message cbc_decrypt sm peer_id encrypted_message =
      remove_padding padded_message := by
    unfold decrypt_message
    rw [hkey]
    simp only
    rw [hdec]
  exact ⟨hd, hd ▸ remove_padding_isSome padded_message hne⟩

/-- C9 witness: the amended theorem applied at a concrete well-formed-key
state and a blob whose padded decryption is nonempty but malformed. -/
theorem c9_decrypt_strips_padding_unvalidated_witness :
    smW.session_keys "P" = some 7 ∧
      idCipher 7 (blobW.take 16) (blobW.drop 16) = some (List.replicate 15 1 ++ [17]) ∧
      (List.replicate 15 1 ++ [17]) ≠ ([] : List ℕ) ∧
      (decrypt_message idCipher smW "P" blobW =
          remove_padding (List.replicate 15 1 ++ [17]) ∧
        (decrypt_message idCipher smW "P" blobW).isSome = true) := by
  have hkey : smW.session_keys "P" = some 7 := by
    simp [smW, mapUpdate]
  have hdec : idCipher 7 (blobW.take 16) (blobW.drop 16) =
      some (List.replicate 15 1 ++ [17]) := by
    decide
  have hne : (List.replicate 15 1 ++ [17]) ≠ ([] : List ℕ) := by
    decide
  exact ⟨hkey, hdec, hne,
    c9_decrypt_strips_padding_unvalidated idCipher smW "P" blobW
      (List.replicate 15 1 ++ [17]) 7 hkey hdec hne⟩


/-! ### Frame reception (src/src/network/connection_manager.py lines 31-47)

`PeerConnection.receive_message` over an input byte stream.  The raised
Python exceptions are modelled by an inductive: every failure path in the
source re-raises as the builtin ConnectionError; the repository's
NetworkError taxonomy (error_handler.py, with kinds such as
PROTOCOL_ERROR) is never constructed there.  The second component of the
result counts the bytes consumed from the transport: a payload that is
never read is never allocated. -/

inductive ErrorType where
  | CONNECTION_ERROR
  | PROTOCOL_ERROR
  | AUTHENTICATION_ERROR
  | RATE_LIMIT_ERROR
  | VALIDATION_ERROR
  | SYNC_ERROR
  | PEER_ERROR
  | INTERNAL_ERROR
  deriving DecidableEq, Repr

/-- The exceptions receive_message can surface: Python's builtin
ConnectionError, or a NetworkError of the repository taxonomy. -/
inductive PyExc where
  | connectionError (msg : String)
  | networkError (et : ErrorType) (msg : String)
  deriving DecidableEq, Repr

/-- `int.from_bytes(bs, byteorder="big")`. -/
def fromBytesBE (bs : List ℕ) : ℕ :=
  bs.foldl (fun acc b => acc * 256 + b) 0

/-- `PeerConnection.receive_message`: read a 4-byte big-endian length,
reject lengths above MAX_MESSAGE_SIZE (the ValueError is re-raised as
ConnectionError by the blanket except), then read exactly that many
payload bytes and decode them (`decode_bytes` stands for
Protocol.decode_message on raw bytes; `none` is its ValueError).  A short
read (asyncio.IncompleteReadError) becomes the "closed by peer"
ConnectionError.  The returned number is how many bytes were consumed
from the stream. -/
def receive_message (decode_bytes : List ℕ → Option Message)
    (stream : List ℕ) : Except PyExc Message × ℕ :=
  if stream.length < 4 then
    (Except.error (PyExc.connectionError "Connection closed by peer"), stream.length)
  else
    let length := fromBytesBE (stream.take 4)
    if MAX_MESSAGE_SIZE < length then
      (Except.error (PyExc.connectionError "Failed to receive message: size exceeds maximum"), 4)
    else if (stream.drop 4).length < length then
      (Except.error (PyExc.connectionError "Connection closed by peer"), stream.length)
    else
      match decode_bytes ((stream.drop 4).take length) with
      | some m => (Except.ok m, 4 + length)
      | none =>
        (Except.error (PyExc.connectionError "Failed to receive message: invalid message"),
         4 + length)

/-- A decoder that accepts nothing, for closed evaluations on paths that
never reach it. -/
def rejectAll : List ℕ → Option Message := fun _ => none

/-- Whether a receive outcome surfaced a NetworkError of kind
PROTOCOL_ERROR. -/
def raisedProtocolError (r : Except PyExc Message × ℕ) : Bool :=
  match r.1 with
  | Except.error (PyExc.networkError ErrorType.PROTOCOL_ERROR _) => true
  | _ => false

/-- C6 counterexample: a frame declaring length 0x00200000 (2 MiB) is
rejected, but with the builtin ConnectionError - no NetworkError of kind
PROTOCOL_ERROR is raised, contrary to the claim - and only the 4 header
bytes are consumed. -/
theorem c6_counterexample :
    receive_message rejectAll ([0, 32, 0, 0] ++ List.replicate 64 0) =
      (Except.error (PyExc.connectionError "Failed to receive message: size exceeds maximum"),
       4) ∧
      raisedProtocolError
        (receive_message rejectAll ([0, 32, 0, 0] ++ List.replicate 64 0)) = false := by
  exact ⟨rfl, rfl⟩

/-- C6 (as the code behaves): every frame whose declared 4-byte
big-endian length exceeds MAX_MESSAGE_SIZE is rejected before the payload
is read - only the 4 header bytes are consumed, so no buffer of the
declared size is allocated - and the surfaced exception is the builtin
ConnectionError wrapping the size ValueError, for every decoder and
every stream contents. -/
theorem c6_oversized_frame_rejected_before_read
    (decode_bytes : List ℕ → Option Message) (stream : List ℕ)
    (hlen : 4 ≤ stream.length)
    (hbig : MAX_MESSAGE_SIZE < fromBytesBE (stream.take 4)) :
    receive_message decode_bytes stream =
      (Except.error (PyExc.connectionError "Failed to receive message: size exceeds maximum"),
       4) := by
  unfold receive_message
  rw [if_neg (by omega), if_pos hbig]

/-- C6 witness: the theorem applied at the 2 MiB frame. -/
theorem c6_oversized_frame_rejected_before_read_witness :
    (4 ≤ ([0, 32, 0, 0] ++ List.replicate 64 0 : List ℕ).length ∧
      MAX_MESSAGE_SIZE < fromBytesBE (([0, 32, 0, 0] ++ List.replicate 64 0).take 4)) ∧
      receive_message rejectAll ([0, 32, 0, 0] ++ List.replicate 64 0) =
        (Except.error
          (PyExc.connectionError "Failed to receive message: size exceeds maximum"), 4) := by
  have h1 : 4 ≤ ([0, 32, 0, 0] ++ List.replicate 64 0 : List ℕ).length := by decide
  have h2 : MAX_MESSAGE_SIZE <
      fromBytesBE (([0, 32, 0, 0] ++ List.replicate 64 0 : List ℕ).take 4) := by decide
  exact ⟨⟨h1, h2⟩,
    c6_oversized_frame_rejected_before_read rejectAll
      ([0, 32, 0, 0] ++ List.replicate 64 0) h1 h2⟩


/-! ### Message dispatcher (src/src/network/message_handler.py)

The external collaborators (Block and Transaction construction, the
validator, the blockchain snapshot) enter as parameters.  Each handler's
try/except body is embedded as an `_inner` function in `Except String`
(the raised exception text) and the handler itself catches, returning
`none` - exactly the source structure, where every handler swallows its
own exceptions.  Whether a block or transaction is appended is outside
these claims; only the replies are tracked. -/

/-- The validator's two predicates. -/
structure Validator (Block Tx : Type) where
  validate_block : Block → Bool
  validate_transaction : Tx → Bool

/-- Parameters of MessageHandler: the local node id, the constructors
`Block(**data)` / `Transaction(**data)` (which may raise), the optional
validator, and `blockchain.to_dict()`. -/
structure HandlerDeps (Block Tx : Type) where
  node_id : String
  parse_block : Json → Except String Block
  parse_transaction : Json → Except String Tx
  validator : Option (Validator Block Tx)
  chain_dict : Json

/-- Python truthiness of a decoded JSON value. -/
def Json.truthy : Json → Bool
  | Json.null => false
  | Json.bool b => b
  | Json.num q => if q = 0 then false else true
  | Json.str s => if s = "" then false else true
  | Json.arr elems => if elems.isEmpty then false else true
  | Json.obj fields => if fields.isEmpty then false else true

/-- Truthiness of `d.get(key)`: a missing key gives Python None. -/
def optTruthy : Option Json → Bool
  | none => false
  | some j => j.truthy

def handle_handshake_inner {Block Tx : Type} (deps : HandlerDeps Block Tx)
    (m : Message) : Except String (Option Message) :=
  if optTruthy (m.data.get "node_id") then
    Except.ok (some
      { type := MessageType.HANDSHAKE,
        data := Json.obj [("node_id", Json.str deps.node_id)],
        sender := deps.node_id, timestamp := m.timestamp, signature := none })
  else Except.error "Missing node_id in handshake message"

def handle_handshake {Block Tx : Type} (deps : HandlerDeps Block Tx)
    (m : Message) : Option Message :=
  match handle_handshake_inner deps m with
  | Except.ok r => r
  | Except.error _ => none

def handle_block_inner {Block Tx : Type} (deps : HandlerDeps Block Tx)
    (m : Message) : Except String (Option Message) :=
  match deps.parse_block m.data with
  | Except.error e => Except.error e
  | Except.ok b =>
    match deps.validator with
    | some v => if v.validate_block b then Except.ok none else Except.error "Invalid block"
    | none => Except.ok none

def handle_block {Block Tx : Type} (deps : HandlerDeps Block Tx)
    (m : Message) : Option Message :=
  match handle_block_inner deps m with
  | Except.ok r => r
  | Except.error _ => none

def handle_transaction_inner {Block Tx : Type} (deps : HandlerDeps Block Tx)
    (m : Message) : Except String (Option Message) :=
  match deps.parse_transaction m.data with
  | Except.error e => Except.error e
  | Except.ok tx =>
    match deps.validator with
    | some v =>
      if v.validate_transaction tx then Except.ok none
      else Except.error "Invalid transaction"
    | none => Except.ok none

def handle_transaction {Block Tx : Type} (deps : HandlerDeps Block Tx)
    (m : Message) : Option Message :=
  match handle_transaction_inner deps m with
  | Except.ok r => r
  | Except.error _ => none

def handle_peer_discovery {Block Tx : Type} (deps : HandlerDeps Block Tx)
    (m : Message) : Option Message :=
  some { type := MessageType.PEER_LIST,
         data := Json.obj [("peers", Json.arr [])],
         sender := deps.node_id, timestamp := m.timestamp, signature := none }

def handle_peer_list {Block Tx : Type} (_ : HandlerDeps Block Tx)
    (_ : Message) : Option Message :=
  none

def handle_heartbeat {Block Tx : Type} (deps : HandlerDeps Block Tx)
    (m : Message) : Option Message :=
  some { type := MessageType.HEARTBEAT, data := Json.obj [],
         sender := deps.node_id, timestamp := m.timestamp, signature := none }

def handle_chain_request {Block Tx : Type} (deps : HandlerDeps Block Tx)
    (m : Message) : Option Message :=
  some { type := MessageType.CHAIN_RESPONSE,
         data := Json.obj [("chain", deps.chain_dict)],
         sender := deps.node_id, timestamp := m.timestamp, signature := none }

def handle_chain_response_inner {Block Tx : Type} (_ : HandlerDeps Block Tx)
    (m : Message) : Except String (Option Message) :=
  if optTruthy (m.data.get "chain") then Except.ok none
  else Except.error "Missing chain data in response"

def handle_chain_response {Block Tx : Type} (deps : HandlerDeps Block Tx)
    (m : Message) : Option Message :=
  match handle_chain_response_inner deps m with
  | Except.ok r => r
  | Except.error _ => none

def handle_error {Block Tx : Type} (_ : HandlerDeps Block Tx)
    (_ : Message) : Option Message :=
  none

/-- The `self.handlers` dict: an entry for every member of the enum. -/
def handlers {Block Tx : Type} (deps : HandlerDeps Block Tx) :
    MessageType → Option (Message → Option Message)
  | MessageType.HANDSHAKE => some (handle_handshake deps)
  | MessageType.BLOCK => some (handle_block deps)
  | MessageType.TRANSACTION => some (handle_transaction deps)
  | MessageType.PEER_DISCOVERY => some (handle_peer_discovery deps)
  | MessageType.PEER_LIST => some (handle_peer_list deps)
  | MessageType.HEARTBEAT => some (handle_heartbeat deps)
  | MessageType.CHAIN_REQUEST => some (handle_chain_request deps)
  | MessageType.CHAIN_RESPONSE => some (handle_chain_response deps)
  | MessageType.ERROR => some (handle_error deps)

/-- `MessageHandler.handle_message`: look the handler up; a missing
entry raises ValueError inside the dispatcher's own try, which catches
and returns the ERROR reply.  The handlers themselves never let an
exception escape, so nothing else reaches that except. -/
def handle_message {Block Tx : Type} (deps : HandlerDeps Block Tx)
    (m : Message) : Option Message :=
  match handlers deps m.type with
  | some h => h m
  | none =>
    some { type := MessageType.ERROR,
           data := Json.obj [("error", Json.str "Unknown message type")],
           sender := deps.node_id, timestamp := m.timestamp, signature := none }

/-- Concrete dispatcher parameters over Block = Tx = ℕ whose block
constructor always raises. -/
def depsW : HandlerDeps ℕ ℕ :=
  { node_id := "self",
    parse_block := fun _ => Except.error "bad block",
    parse_transaction := fun _ => Except.ok 0,
    validator := none,
    chain_dict := Json.obj [] }

/-- A BLOCK message whose handling raises inside handle_block. -/
def msgW : Message :=
  { type := MessageType.BLOCK, data := Json.obj [], sender := "peer1",
    timestamp := 0, signature := none }

/-- C7 counterexample: the BLOCK handler's body raises, yet the
dispatcher returns no reply at all - not an ERROR reply carrying the
text, as the claim states - because handle_block catches its own
exception and returns None. -/
theorem c7_counterexample :
    handle_block_inner depsW msgW = Except.error "bad block" ∧
      handle_message depsW msgW = none := by
  exact ⟨rfl, rfl⟩

/-- Whether an `Except` computation raised. -/
def isErr {ε α : Type} : Except ε α → Bool
  | Except.error _ => true
  | Except.ok _ => false

/-- The handler body for the type of `m` raises an exception.  Four
handler bodies contain raise statements (handshake, block, transaction,
chain_response); the remaining five bodies perform no operation that can
raise, so their try/except arms are dead and this predicate is false. -/
def handlerRaises {Block Tx : Type} (deps : HandlerDeps Block Tx)
    (m : Message) : Bool :=
  match m.type with
  | MessageType.HANDSHAKE => isErr (handle_handshake_inner deps m)
  | MessageType.BLOCK => isErr (handle_block_inner deps m)
  | MessageType.TRANSACTION => isErr (handle_transaction_inner deps m)
  | MessageType.CHAIN_RESPONSE => isErr (handle_chain_response_inner deps m)
  | _ => false

lemma handle_handshake_raise_none {Block Tx : Type} (deps : HandlerDeps Block Tx)
    (m : Message) (h : isErr (handle_handshake_inner deps m) = true) :
    handle_handshake deps m = none := by
  unfold handle_handshake
  cases hin : handle_handshake_inner deps m with
  | ok r => rw [hin] at h; simp [isErr] at h
  | error e => rfl

lemma handle_block_raise_none {Block Tx : Type} (deps : HandlerDeps Block Tx)
    (m : Message) (h : isErr (handle_block_inner deps m) = true) :
    handle_block deps m = none := by
  unfold handle_block
  cases hin : handle_block_inner deps m with
  | ok r => rw [hin] at h; simp [isErr] at h
  | error e => rfl

lemma handle_transaction_raise_none {Block Tx : Type} (deps : HandlerDeps Block Tx)
    (m : Message) (h : isErr (handle_transaction_inner deps m) = true) :
    handle_transaction deps m = none := by
  unfold handle_transaction
  cases hin : handle_transaction_inner deps m with
  | ok r => rw [hin] at h; simp [isErr] at h
  | error e => rfl

lemma handle_chain_response_raise_none {Block Tx : Type} (deps : HandlerDeps Block Tx)
    (m : Message) (h : isErr (handle_chain_response_inner deps m) = true) :
    handle_chain_response deps m = none := by
  unfold handle_chain_response
  cases hin : handle_chain_response_inner deps m with
  | ok r => rw [hin] at h; simp [isErr] at h
  | error e => rfl

/-- The BLOCK handler never replies at all: both arms of its body
evaluate to `ok none` or raise, and the catch returns None. -/
lemma handle_block_eq_none {Block Tx : Type} (deps : HandlerDeps Block Tx)
    (m : Message) : handle_block deps m = none := by
  unfold handle_block handle_block_inner
  cases deps.parse_block m.data with
  | error e => rfl
  | ok b =>
    cases deps.validator with
    | none => rfl
    | some v => by_cases hv : v.validate_block b <;> simp [hv]

lemma handle_transaction_eq_none {Block Tx : Type} (deps : HandlerDeps Block Tx)
    (m : Message) : handle_transaction deps m = none := by
  unfold handle_transaction handle_transaction_inner
  cases deps.parse_transaction m.data with
  | error e => rfl
  | ok tx =>
    cases deps.validator with
    | none => rfl
    | some v => by_cases hv : v.validate_transaction tx <;> simp [hv]

lemma handle_chain_response_eq_none {Block Tx : Type} (deps : HandlerDeps Block Tx)
    (m : Message) : handle_chain_response deps m = none := by
  unfold handle_chain_response handle_chain_response_inner
  by_cases h : optTruthy (m.data.get "chain") <;> simp [h]

lemma handle_handshake_reply_type {Block Tx : Type} (deps : HandlerDeps Block Tx)
    (m : Message) (r : Message) (h : handle_handshake deps m = some r) :
    r.type = MessageType.HANDSHAKE := by
  unfold handle_handshake handle_handshake_inner at h
  by_cases ht : optTruthy (m.data.get "node_id")
  · rw [if_pos ht] at h
    cases h
    rfl
  · rw [if_neg ht] at h
    cases h

/-- For every message of any of the nine types, the dispatcher's reply,
when there is one, is never an ERROR message: handlers swallow their own
exceptions (yielding None) and no handler constructs an ERROR reply; the
dispatcher's ERROR construction sits only in the unregistered-type
branch. -/
lemma dispatch_reply_not_error {Block Tx : Type} (deps : HandlerDeps Block Tx)
    (m2 r : Message) (h : handle_message deps m2 = some r) :
    r.type ≠ MessageType.ERROR := by
  unfold handle_message at h
  cases hty : m2.type <;> rw [hty] at h <;> simp only [handlers] at h
  case HANDSHAKE =>
    rw [handle_handshake_reply_type deps m2 r h]
    intro hc
    cases hc
  case BLOCK => rw [handle_block_eq_none deps m2] at h; cases h
  case TRANSACTION => rw [handle_transaction_eq_none deps m2] at h; cases h
  case PEER_DISCOVERY =>
    unfold handle_peer_discovery at h
    cases h
    intro hc
    cases hc
  case PEER_LIST => unfold handle_peer_list at h; cases h
  case HEARTBEAT =>
    unfold handle_heartbeat at h
    cases h
    intro hc
    cases hc
  case CHAIN_REQUEST =>
    unfold handle_chain_request at h
    cases h
    intro hc
    cases hc
  case CHAIN_RESPONSE => rw [handle_chain_response_eq_none deps m2] at h; cases h
  case ERROR => unfold handle_error at h; cases h

/-- C7 (as the code behaves): whenever the handler body for a message's
type raises - for any of the four handler bodies that can raise, the
other five cannot - the dispatcher returns no reply at all, because
every handler catches its own exceptions and returns None; every member
of the enumeration has a registered handler; and no dispatch of any
message ever returns an ERROR reply - the dispatcher's ERROR reply is
built only in the unregistered-type branch, unreachable for the nine
members. -/
theorem c7_handler_exception_swallowed {Block Tx : Type}
    (deps : HandlerDeps Block Tx) (m : Message)
    (hraise : handlerRaises deps m = true) :
    handle_message deps m = none ∧
      (∀ t : MessageType, (handlers deps t).isSome = true) ∧
      ∀ m2 r : Message, handle_message deps m2 = some r →
        r.type ≠ MessageType.ERROR := by
  refine ⟨?_, fun t => by cases t <;> rfl,
    fun m2 r h => dispatch_reply_not_error deps m2 r h⟩
  unfold handle_message
  unfold handlerRaises at hraise
  cases hty : m.type <;> rw [hty] at hraise
  case HANDSHAKE => exact handle_handshake_raise_none deps m hraise
  case BLOCK => exact handle_block_raise_none deps m hraise
  case TRANSACTION => exact handle_transaction_raise_none deps m hraise
  case PEER_DISCOVERY => exact Bool.noConfusion hraise
  case PEER_LIST => exact Bool.noConfusion hraise
  case HEARTBEAT => exact Bool.noConfusion hraise
  case CHAIN_REQUEST => exact Bool.noConfusion hraise
  case CHAIN_RESPONSE => exact handle_chain_response_raise_none deps m hraise
  case ERROR => exact Bool.noConfusion hraise

/-- C7 witness: the theorem applied at the concrete raising BLOCK
message. -/
theorem c7_handler_exception_swallowed_witness :
    handlerRaises depsW msgW = true ∧
      (handle_message depsW msgW = none ∧
        (∀ t : MessageType, (handlers depsW t).isSome = true) ∧
        ∀ m2 r : Message, handle_message depsW m2 = some r →
          r.type ≠ MessageType.ERROR) := by
  have h : handlerRaises depsW msgW = true := rfl
  exact ⟨h, c7_handler_exception_swallowed depsW msgW h⟩


/-! ### Sync manager (src/src/network/sync_manager.py lines 12-75)

Only the pieces the claim touches: the sync state record, the constants,
`should_sync`, and the guard `periodic_sync` applies around it. -/

def PEER_DISCOVERY_INTERVAL : ℚ := 300

def MIN_PEERS_FOR_SYNC : ℕ := 3

structure SyncState where
  is_syncing : Bool
  last_sync : ℚ
  sync_height : ℤ
  target_height : ℤ
  sync_peers : List String

/-- `SyncManager.should_sync`: enough time elapsed since the last sync
and enough peers.  The source performs no `is_syncing` check here. -/
def should_sync (st : SyncState) (numPeers : ℕ) (now : ℚ) : Bool :=
  if now - st.last_sync < PEER_DISCOVERY_INTERVAL then false
  else if numPeers < MIN_PEERS_FOR_SYNC then false
  else true

/-- The guard of `periodic_sync`: `not self.state.is_syncing and
self.should_sync()` - the `is_syncing` test lives in the caller. -/
def periodic_sync_triggers (st : SyncState) (numPeers : ℕ) (now : ℚ) : Bool :=
  !st.is_syncing && should_sync st numPeers now

/-- C8 counterexample: with `is_syncing = true`, 300 seconds elapsed and
3 peers, `should_sync` returns true - the claim's only-if direction
(that `should_sync` is false whenever `is_syncing` is true) fails. -/
theorem c8_counterexample :
    should_sync
        { is_syncing := true, last_sync := 0, sync_height := 0,
          target_height := 0, sync_peers := [] } 3 300 = true ∧
      ({ is_syncing := true, last_sync := 0, sync_height := 0,
         target_height := 0, sync_peers := [] } : SyncState).is_syncing = true := by
  constructor
  · norm_num [should_sync, PEER_DISCOVERY_INTERVAL, MIN_PEERS_FOR_SYNC]
  · rfl

/-- C8 (as the code behaves): `should_sync` is true exactly when the
interval has elapsed and the peer count suffices - it ignores
`is_syncing`; that third condition of the claim is checked by
`periodic_sync` around the call, so the sync is triggered exactly when
all three hold. -/
theorem c8_should_sync_iff (st : SyncState) (numPeers : ℕ) (now : ℚ) :
    (should_sync st numPeers now = true ↔
      (PEER_DISCOVERY_INTERVAL ≤ now - st.last_sync ∧
        MIN_PEERS_FOR_SYNC ≤ numPeers)) ∧
      (periodic_sync_triggers st numPeers now = true ↔
        (st.is_syncing = false ∧
          PEER_DISCOVERY_INTERVAL ≤ now - st.last_sync ∧
          MIN_PEERS_FOR_SYNC ≤ numPeers)) := by
  have hmain : should_sync st numPeers now = true ↔
      (PEER_DISCOVERY_INTERVAL ≤ now - st.last_sync ∧
        MIN_PEERS_FOR_SYNC ≤ numPeers) := by
    unfold should_sync
    by_cases h1 : now - st.last_sync < PEER_DISCOVERY_INTERVAL
    · simp only [h1, if_true]
      constructor
      · intro h; exact absurd h (by simp)
      · rintro ⟨ha, _⟩; linarith
    · simp only [h1, if_false]
      by_cases h2 : numPeers < MIN_PEERS_FOR_SYNC
      · simp only [h2, if_true]
        constructor
        · intro h; exact absurd h (by simp)
        · rintro ⟨_, hb⟩; omega
      · simp only [h2, if_false]
        exact ⟨fun _ => ⟨le_of_not_lt h1, le_of_not_lt h2⟩, fun _ => trivial⟩
  refine ⟨hmain, ?_⟩
  unfold periodic_sync_triggers
  rw [Bool.and_eq_true, Bool.not_eq_true', hmain]


end TriV3
